import Mathlib

set_option maxRecDepth 20000

namespace GenerateMd

/-! Shallow embedding of `src/docs/generate_md.py`, a one-shot script that
builds a dict of five markdown documents and writes them into a zip archive.

Strings model the Python `str` payloads; `writestr` encodes them as UTF-8
bytes, so string equality models byte equality of stored entry data. -/

/-- `BQ = "```"` (generate_md.py line 5): the delimiter token substituted
into f-string content wherever a literal fenced-code-block marker is needed. -/
def BQ : String := "```"

/-- `zipfile.ZIP_STORED`: entry stored without compression (method 0). -/
def ZIP_STORED : Nat := 0

/-- `zipfile.ZIP_DEFLATED`: deflate compression (method 8). -/
def ZIP_DEFLATED : Nat := 8

/-- One entry of the zip archive: its name, its data (the UTF-8 decoded
bytes, modelled as the string), and the compression method recorded for it. -/
structure ZipEntry where
  name : String
  data : String
  compressType : Nat
deriving DecidableEq, Repr

/-- State of an open `zipfile.ZipFile`: the default compression method the
file was opened with, and the entries written so far, in write order. -/
structure ZipFileState where
  compression : Nat
  entries : List ZipEntry
deriving DecidableEq, Repr

/-- `zipfile.ZipFile(fn, 'w')` with the default `compression=ZIP_STORED`:
a fresh, empty archive (mode `'w'` truncates any prior file). -/
def zipOpenW : ZipFileState := ⟨ZIP_STORED, []⟩

/-- `zipf.writestr(name, content)` with default `compress_type=None`: the
new entry takes the archive's default compression method. -/
def writestr (z : ZipFileState) (name content : String) : ZipFileState :=
  ⟨z.compression, z.entries ++ [⟨name, content, z.compression⟩]⟩

/-- CPython dict insertion: an existing key keeps its position and gets the
new value; a fresh key is appended at the end. -/
def dictInsert (d : List (String × String)) (kv : String × String) :
    List (String × String) :=
  if d.any (fun p => p.fst == kv.fst) then
    d.map (fun p => if p.fst == kv.fst then (p.fst, kv.snd) else p)
  else d ++ [kv]

/-- Semantics of a Python dict display `{k1: v1, ..., kn: vn}`: keys are
inserted left to right; a duplicate key silently overwrites the earlier
value (no error is raised). -/
def dictOfList (l : List (String × String)) : List (String × String) :=
  l.foldl dictInsert []

/-- Content of the `"README.md"` entry (generate_md.py lines 8-26). -/
def readme_md : String :=
  "# Local Sync Board (Cloud Edition)\n"
  ++ "\n"
  ++ "## 🎯 プロジェクト概要\n"
  ++ "アナログゲーム（麻雀、ボードゲーム等）の「点数・変数管理」を、スマートフォン同士でリアルタイムに同期するサポートアプリです。\n"
  ++ "Supabase (BaaS) をバックエンドに採用し、QRコードやルームIDによる手軽なマルチプレイ環境を提供します。\n"
  ++ "\n"
  ++ "## ✨ 特徴\n"
  ++ "1. **クラウドリアルタイム同期:** インターネット経由で、遅延なく全員のスコアが同期されます。\n"
  ++ "2. **Master-Clientモデル:**\n"
  ++ "    * **親機:** ルーム作成、ゲームのルール（計算式・UI）定義。\n"
  ++ "    * **子機:** ルームに参加し、自分のスコアを操作。\n"
  ++ "3. **柔軟なテンプレート:** 麻雀、人生ゲームなど、ゲームに合わせた「ボード」を自由に作成・保存可能。\n"
  ++ "\n"
  ++ "## 🛠 技術スタック\n"
  ++ "* **Frontend:** React Native (Expo) / TypeScript\n"
  ++ "* **Backend:** Supabase (PostgreSQL / Realtime)\n"
  ++ "* **Auth:** Supabase Auth (Anonymous Login / 匿名認証)\n"
  ++ "* **State Management:** React Query or Context API\n"

/-- Content of the `"01_Requirements.md"` entry (generate_md.py lines 28-60). -/
def requirements_md : String :=
  "# 要件定義書 (System Requirements Specification)\n"
  ++ "\n"
  ++ "## 1. システムの目的\n"
  ++ "複数のスマートフォン間で、ゲームの進行状況（スコア、ステータス）をインターネット経由でリアルタイム共有する。\n"
  ++ "\n"
  ++ "## 2. スコープ定義\n"
  ++ "\n"
  ++ "### 2.1 In Scope (対象範囲)\n"
  ++ "* **インターネット通信:** Wi-Fi または モバイルデータ通信を利用。\n"
  ++ "* **ルーム管理:**\n"
  ++ "    * 親機によるルーム作成（Room ID生成）。\n"
  ++ "    * 子機によるRoom ID入力（またはQR読み取り）での参加。\n"
  ++ "* **ボード作成 (Builder):** 親機によるUI配置、変数定義、計算ロジックの定義。\n"
  ++ "* **リアルタイム同期:** Supabase Realtimeを利用したミリ秒単位の状態反映。\n"
  ++ "* **匿名利用:** アカウント登録不要で、アプリを開けばすぐ使える（匿名認証）。\n"
  ++ "\n"
  ++ "### 2.2 Out of Scope (対象外)\n"
  ++ "* **完全オフライン動作:** 圏外では動作しない（エラー表示を行う）。\n"
  ++ "* **複雑な権限管理:** ルーム内のユーザーは善意のプレイヤーであると仮定し、厳密なチート対策は行わない。\n"
  ++ "* **過去ログの永続保存:** ゲーム終了後、一定期間でルームデータは削除される（エフェメラルな利用）。\n"
  ++ "\n"
  ++ "## 3. 機能要件 (Functional Requirements)\n"
  ++ "\n"
  ++ "* **[FR-01] ルーム作成と接続:**\n"
  ++ "    * 親機はユニークな「Room ID」を発行する。\n"
  ++ "    * 子機はそのIDを入力することで、特定のセッション（DBの行）を購読(Subscribe)する。\n"
  ++ "* **[FR-02] ボードテンプレート:**\n"
  ++ "    * 親機は「麻雀用」「ボードゲーム用」などの設定をJSON形式でDBに保存し、呼び出せること。\n"
  ++ "* **[FR-03] 状態同期:**\n"
  ++ "    * 誰かが数値を更新したら、即座に全員の画面に反映されること（Supabase Realtime）。\n"
  ++ "* **[FR-04] データ永続化:**\n"
  ++ "    * アプリをタスクキルしても、サーバー上にデータがある限り復帰できること。\n"

/-- Content of the `"02_Basic_Design.md"` entry (generate_md.py lines 62-87). -/
def basic_design_md : String :=
  "# 基本設計書 (Basic Design - UI/UX)\n"
  ++ "\n"
  ++ "## 1. 画面フロー\n"
  ++ "\n"
  ++ "| ID | 画面名 | 役割 | 備考 |\n"
  ++ "|:---|:---|:---|:---|\n"
  ++ "| **S-01** | **Home / Lobby** | スタート画面 | 親機：「部屋を作る」 / 子機：「部屋に入る」 |\n"
  ++ "| **S-02** | **Game Board** | メイン画面 | 全員のスコア表示。ここからアクション(S-03)へ。 |\n"
  ++ "| **S-03** | **Action Modal** | 入力パネル | 数値入力、アクション実行（モーダル表示）。 |\n"
  ++ "| **S-04** | **Builder / Settings** | 設定画面 | 親機専用。レイアウト編集、リセット操作。 |\n"
  ++ "\n"
  ++ "## 2. 詳細UX\n"
  ++ "\n"
  ++ "### S-01: Home / Lobby\n"
  ++ "* シンプルな2択ボタンを表示。\n"
  ++ "* **Join (子機):** 4桁〜6桁のルームID入力フォーム、またはカメラ起動ボタン（QR用）。\n"
  ++ "* **Create (親機):** 新規作成ボタン。押下時にSupabaseにレコードを作成し、S-02へ遷移。\n"
  ++ "\n"
  ++ "### S-02: Game Board\n"
  ++ "* Supabaseからの変更通知を受け取り、自動で再描画される。\n"
  ++ "* ヘッダーに「Room ID」を表示し、タップでコピー/QR表示可能にする。\n"
  ++ "\n"
  ++ "### S-04: Builder (親機のみ)\n"
  ++ "* プリセット（麻雀など）の選択リスト。\n"
  ++ "* 「変数の追加」「ボタンの追加」を行い、DBの `template` カラムを更新する。\n"

/-- Content of the `"03_Data_Model.md"` entry (generate_md.py lines 89-153).
The Python source is an f-string: `{BQ}` interpolates the delimiter token and
`\x7b\x7b`/`\x7d\x7d` denote literal braces; both substitutions are applied here
exactly as the f-string applies them. -/
def data_model_md : String :=
  "# データモデル設計書 (Supabase Schema)\n"
  ++ "\n"
  ++ "## 1. テーブル構成\n"
  ++ "PostgreSQLのテーブルとして以下を作成する。\n"
  ++ "\n"
  ++ "### 1.1 rooms (ゲームセッション)\n"
  ++ "1つのゲームプレイの単位。\n"
  ++ "\n"
  ++ "| Column | Type | Note |\n"
  ++ "|:---|:---|:---|\n"
  ++ "| `id` | uuid | Primary Key |\n"
  ++ "| `room_code` | text | 参加用ショートコード (e.g. \"1234\") |\n"
  ++ "| `host_user_id` | uuid | 親機のUser ID (Supabase Auth) |\n"
  ++ "| `status` | text | \"waiting\", \"playing\", \"finished\" |\n"
  ++ "| `template` | jsonb | ボード定義（レイアウト、計算ロジック） |\n"
  ++ "| `current_state` | jsonb | 全プレイヤーの現在スコア |\n"
  ++ "| `created_at` | timestamp | |\n"
  ++ "\n"
  ++ "### 1.2 profiles (ユーザー/端末情報)\n"
  ++ "匿名認証で生成されたユーザー情報。\n"
  ++ "\n"
  ++ "| Column | Type | Note |\n"
  ++ "|:---|:---|:---|\n"
  ++ "| `id` | uuid | Supabase Auth ID (PK) |\n"
  ++ "| `display_name` | text | ニックネーム |\n"
  ++ "| `current_room_id` | uuid | 参加中のルーム (FK: rooms.id) |\n"
  ++ "\n"
  ++ "## 2. JSON構造 (jsonbカラムの中身)\n"
  ++ "\n"
  ++ "### template (定義)\n"
  ++ "親機が設定する「ゲームのルール」。\n"
  ++ BQ ++ "json\n"
  ++ "\x7b\n"
  ++ "  \"variables\": [\n"
  ++ "    \x7b \"key\": \"score\", \"label\": \"点数\", \"initial\": 25000 \x7d,\n"
  ++ "    \x7b \"key\": \"coins\", \"label\": \"コイン\", \"initial\": 0 \x7d\n"
  ++ "  ],\n"
  ++ "  \"actions\": [\n"
  ++ "    \x7b \"label\": \"リーチ\", \"calc\": \"score - 1000\" \x7d\n"
  ++ "  ]\n"
  ++ "\x7d\n"
  ++ BQ ++ "\n"
  ++ "\n"
  ++ "### current_state (値)\n"
  ++ "全プレイヤーの現在の値。`template` の `variables` で定義されたキーを持つ。\n"
  ++ BQ ++ "json\n"
  ++ "\x7b\n"
  ++ "  \"user_uuid_A\": \x7b\n"
  ++ "    \"score\": 24000,\n"
  ++ "    \"coins\": 0,\n"
  ++ "    \"_status\": \"ready\" \n"
  ++ "  \x7d,\n"
  ++ "  \"user_uuid_B\": \x7b\n"
  ++ "    \"score\": 25000,\n"
  ++ "    \"coins\": 0,\n"
  ++ "    \"_status\": \"thinking\"\n"
  ++ "  \x7d\n"
  ++ "\x7d\n"
  ++ BQ ++ "\n"
  ++ "※ `_` (アンダースコア) 始まりのキーは、テンプレートに依存しないシステム用ステータスとする。\n"
  ++ "\n"
  ++ "## 3. セキュリティポリシー (RLS)\n"
  ++ "* **rooms:** `room_code` を知っているユーザーは `SELECT` (参照) 可能。\n"
  ++ "* **update:** 参加者は `current_state` カラムを `UPDATE` 可能（またはPostgres Function経由で更新）。\n"

/-- Content of the `"04_Tech_Architecture.md"` entry (generate_md.py lines 155-175). -/
def tech_architecture_md : String :=
  "# 技術構成書 (Technical Architecture)\n"
  ++ "\n"
  ++ "## 1. 技術選定理由\n"
  ++ "* **Platform:** React Native (Expo)\n"
  ++ "    * iOS/Android両対応、開発速度が速い。\n"
  ++ "* **Backend:** Supabase\n"
  ++ "    * **Database:** PostgreSQL (堅牢なデータ管理)。\n"
  ++ "    * **Realtime:** DBの変更をWebSocketで即座にクライアントへPushする機能が標準装備されており、自前でのSocket実装が不要。\n"
  ++ "    * **Auth:** 匿名認証 (Anonymous Login) が標準で使え、面倒な登録フォームを作らなくて良い。\n"
  ++ "\n"
  ++ "## 2. 同期フロー (Sync Strategy)\n"
  ++ "\n"
  ++ "1. **Change:** ユーザーがボタンを押す。\n"
  ++ "2. **Update:** クライアントが Supabase JS SDK を使い、`rooms` テーブルの `current_state` を更新する。\n"
  ++ "3. **Broadcast:** Supabase が変更を検知し、同じルームを購読している全端末へパッチを配信。\n"
  ++ "4. **Reflect:** 各端末の画面が自動更新される。\n"
  ++ "\n"
  ++ "## 3. オフライン/エラーハンドリング\n"
  ++ "* 通信切断時は、画面に「接続中...」のトーストを表示し、操作をブロックする（不整合防止）。\n"
  ++ "* 再接続時に最新の `current_state` をフェッチし、同期し直す。\n"

/-- The pairs of the `files_content` dict display, in source order
(generate_md.py lines 7-176). -/
def files_content_pairs : List (String × String) :=
  [("README.md", readme_md),
   ("01_Requirements.md", requirements_md),
   ("02_Basic_Design.md", basic_design_md),
   ("03_Data_Model.md", data_model_md),
   ("04_Tech_Architecture.md", tech_architecture_md)]

/-- `files_content`: the registry dict, with Python dict-display semantics
applied to the listed pairs. -/
def files_content : List (String × String) :=
  dictOfList files_content_pairs

/-- `zip_filename = "Local_Sync_Board_Cloud_Docs.zip"` (generate_md.py line 179). -/
def zip_filename : String := "Local_Sync_Board_Cloud_Docs.zip"

/-- The archive-writing loop (generate_md.py lines 182-184): open the zip in
mode `'w'`, then `writestr` each `(filename, content)` pair of the registry in
iteration (= insertion) order. Returns the entries of the finished archive. -/
def runZip (reg : List (String × String)) : List ZipEntry :=
  (reg.foldl (fun z p => writestr z p.fst p.snd) zipOpenW).entries

/-- A filesystem, mapping a path to the zip archive stored there (if any). -/
def FS : Type := String → Option (List ZipEntry)

/-- One successful run of the script against filesystem `fs`: mode `'w'`
creates or truncates the file at `zip_filename`, so whatever was there before
is replaced by the freshly written archive; every other path is untouched. -/
def runProgram (fs : FS) : FS :=
  fun p => if p = zip_filename then some (runZip files_content) else fs p

/-- `print(f"Creating \x7bzip_filename\x7d...")` (generate_md.py line 180). -/
def creatingLine : String := "Creating " ++ zip_filename ++ "..."

/-- `print(f" - Added: \x7bfilename\x7d")` (generate_md.py line 185). -/
def addedLine (n : String) : String := " - Added: " ++ n

/-- `print(f"Done! '\x7bzip_filename\x7d' has been created.")` (line 187). -/
def doneLine : String := "Done! \x27" ++ zip_filename ++ "\x27 has been created."

/-- I/O environment for a run: whether opening the output path succeeds, and
whether the `k`-th entry write succeeds (an Python `OSError` is modelled as
the corresponding operation failing). -/
structure IOEnv where
  openOk : Bool
  writeOk : Nat → Bool

/-- Outcome of a run: normal termination with the archive entries and the
stdout lines, or termination by an uncaught exception carrying the error
message and the stdout lines printed before the failure. -/
inductive RunResult where
  | ok : List ZipEntry → List String → RunResult
  | err : String → List String → RunResult

/-- The body of the `with` block (generate_md.py lines 183-185): write entry
`k`, then print its progress line; an exception during a write propagates
immediately, abandoning the rest of the loop. -/
def writeLoop (env : IOEnv) : Nat → ZipFileState → List String →
    List (String × String) → (String × List String) ⊕ (ZipFileState × List String)
  | _, z, lines, [] => Sum.inr (z, lines)
  | k, z, lines, p :: rest =>
    if env.writeOk k then
      writeLoop env (k + 1) (writestr z p.fst p.snd) (lines ++ [addedLine p.fst]) rest
    else Sum.inl ("error writing " ++ p.fst, lines)

/-- A full run of the script (generate_md.py lines 180-187) under I/O
environment `env`: print the `Creating` line, open the zip (may fail), run
the write loop (may fail), close the archive at the end of the `with` block,
and only then print the completion line. -/
def runWithIO (env : IOEnv) (reg : List (String × String)) : RunResult :=
  if env.openOk then
    match writeLoop env 0 zipOpenW [creatingLine] reg with
    | Sum.inl (e, lines) => RunResult.err e lines
    | Sum.inr (z, lines) => RunResult.ok z.entries (lines ++ [doneLine])
  else RunResult.err ("cannot open " ++ zip_filename) [creatingLine]

/-- The I/O environment in which every operation succeeds. -/
def allOkEnv : IOEnv := ⟨true, fun _ => true⟩

/-- The stdout lines of a successful run. -/
def successLines : List String :=
  match runWithIO allOkEnv files_content with
  | RunResult.ok _ lines => lines
  | RunResult.err _ lines => lines

/-- Number of (possibly overlapping) occurrences of `pat` in `s`. -/
def countOcc (pat : List Char) : List Char → Nat
  | [] => 0
  | c :: rest => cond (List.isPrefixOf pat (c :: rest)) 1 0 + countOcc pat rest

/-- Number of occurrences of the pattern string `pat` in `s`. -/
def countSub (s pat : String) : Nat := countOcc pat.data s.data

/-- The literal text `"\x7bBQ\x7d"`: what an f-string placeholder would leave
behind if the delimiter substitution had not been applied. -/
def placeholder : String := "\x7bBQ\x7d"

/-- Formalization of the spec's words for the uniqueness claim: constructing
the registry dict from the pair list `l` "never silently overwrites one entry
with the other", i.e. every listed pair survives into the constructed
registry. (Failing fast is not even expressible for a Python dict display,
whose construction is total; see the counterexample below, where construction
succeeds and drops a pair.) -/
@[reducible] def specNoSilentOverwrite (l : List (String × String)) : Prop :=
  ∀ kv ∈ l, kv ∈ dictOfList l

/-- Formalization of the spec's words for the output-lines claim: the stdout
of a successful run is exactly one progress line per entry plus one final
confirmation line, and nothing else. -/
@[reducible] def specOutputOnlyProgressAndDone : Prop :=
  successLines = files_content.map (fun p => addedLine p.fst) ++ [doneLine]

/-- Formalization of the spec's words for the compressed-entry claim: every
entry of the produced archive is stored compressed, i.e. with a compression
method other than `ZIP_STORED` (method 0, "no compression"). -/
@[reducible] def specEntriesCompressed : Prop :=
  ∀ e ∈ runZip files_content, e.compressType ≠ ZIP_STORED

/-! ## Helper lemmas -/

theorem foldl_writestr (reg : List (String × String)) :
    ∀ z : ZipFileState,
      reg.foldl (fun z p => writestr z p.fst p.snd) z =
        ⟨z.compression, z.entries ++ reg.map (fun p => ⟨p.fst, p.snd, z.compression⟩)⟩ := by
  induction reg with
  | nil => intro z; simp [writestr]
  | cons p rest ih =>
      intro z
      rw [List.foldl_cons, ih]
      simp [writestr]

theorem runZip_eq_map (reg : List (String × String)) :
    runZip reg = reg.map (fun p => ⟨p.fst, p.snd, ZIP_STORED⟩) := by
  unfold runZip zipOpenW
  rw [foldl_writestr]
  simp

theorem writeLoop_inr (env : IOEnv) :
    ∀ (rest : List (String × String)) (k : Nat) (z : ZipFileState)
      (lines : List String) (z' : ZipFileState) (lines' : List String),
      writeLoop env k z lines rest = Sum.inr (z', lines') →
      z' = rest.foldl (fun z p => writestr z p.fst p.snd) z ∧
      lines' = lines ++ rest.map (fun p => addedLine p.fst) := by
  intro rest
  induction rest with
  | nil =>
      intro k z lines z' lines' h
      simp [writeLoop] at h
      simp [h.1, h.2]
  | cons p rest ih =>
      intro k z lines z' lines' h
      by_cases hw : env.writeOk k
      · simp [writeLoop, hw] at h
        obtain ⟨h1, h2⟩ := ih (k + 1) _ _ _ _ h
        exact ⟨by simpa using h1, by simpa [List.append_assoc] using h2⟩
      · simp [writeLoop, hw] at h

theorem writeLoop_inl (env : IOEnv) :
    ∀ (rest : List (String × String)) (k : Nat) (z : ZipFileState)
      (lines : List String) (e : String) (lines' : List String),
      writeLoop env k z lines rest = Sum.inl (e, lines') →
      ∃ n, lines' = lines ++ (rest.take n).map (fun p => addedLine p.fst) := by
  intro rest
  induction rest with
  | nil => intro k z lines e lines' h; simp [writeLoop] at h
  | cons p rest ih =>
      intro k z lines e lines' h
      by_cases hw : env.writeOk k
      · simp [writeLoop, hw] at h
        obtain ⟨n, hn⟩ := ih (k + 1) _ _ _ _ h
        exact ⟨n + 1, by simpa [List.take, List.append_assoc] using hn⟩
      · simp [writeLoop, hw] at h
        exact ⟨0, by simp [h.2]⟩

/-! ## Claim theorems -/

/-- C1: after a successful run, the archive stored at the output path
contains exactly the 5 entries `README.md`, `01_Requirements.md`,
`02_Basic_Design.md`, `03_Data_Model.md`, `04_Tech_Architecture.md`, in that
order, and no other entries. -/
theorem archive_contains_exactly_five_entries (fs : FS) :
    ∃ a : List ZipEntry,
      runProgram fs zip_filename = some a ∧
      a.map ZipEntry.name =
        ["README.md", "01_Requirements.md", "02_Basic_Design.md",
         "03_Data_Model.md", "04_Tech_Architecture.md"] ∧
      a.length = 5 := by
  refine ⟨runZip files_content, by simp [runProgram], rfl, rfl⟩

/-- C2 counterexample: a Python dict display does not reject a duplicated
key. Construction succeeds and the earlier pair is silently overwritten by
the later one: `("a", "x")` does not survive into the constructed dict. -/
theorem duplicate_name_silently_overwritten :
    ¬ specNoSilentOverwrite [("a", "x"), ("a", "y")] ∧
    dictOfList [("a", "x"), ("a", "y")] = [("a", "y")] := by
  exact ⟨by decide, rfl⟩

/-- C2 (amended): the registry dict display never fails; a duplicate name
would be silently overwritten (last value wins). The actual registry's five
names are pairwise distinct, so no overwrite occurs and every listed pair
survives construction unchanged. -/
theorem registry_names_distinct :
    (files_content_pairs.map Prod.fst).Nodup ∧
    files_content = files_content_pairs := by
  exact ⟨by decide, rfl⟩

/-- C3: the bytes stored for each entry are exactly the resolved document
texts; no entry retains the unresolved `\x7bBQ\x7d` placeholder; the stored
`03_Data_Model.md` content has exactly two `BQ ++ "json"` fence openings and
four fence markers in total (two complete fenced JSON blocks), and the
delimiter token `BQ` is exactly three backtick characters (code point 96). -/
theorem content_fidelity :
    (runZip files_content).map ZipEntry.data =
      [readme_md, requirements_md, basic_design_md,
       data_model_md, tech_architecture_md] ∧
    ((runZip files_content).map ZipEntry.data).all
      (fun d => countSub d placeholder == 0) = true ∧
    countSub data_model_md (BQ ++ "json") = 2 ∧
    countSub data_model_md BQ = 4 ∧
    BQ.length = 3 ∧ (BQ.data.all fun c => c.toNat == 96) = true := by
  refine ⟨rfl, by decide, by decide, by decide, rfl, rfl⟩

/-- C4: two successful runs with the registry unchanged produce identical
archives (same entry names, same per-entry content, same order), whatever
the prior states of the filesystem were. -/
theorem archive_generation_deterministic (fs₁ fs₂ : FS) :
    runProgram fs₁ zip_filename = runProgram fs₂ zip_filename ∧
    runProgram fs₁ zip_filename = some (runZip files_content) := by
  constructor <;> simp [runProgram]

/-- C5: the emitter writes entries in the registry's insertion order: the
archive's entry-name sequence equals the registry's name sequence, for any
registry and in particular for `files_content`. -/
theorem entries_written_in_definition_order (reg : List (String × String)) :
    (runZip reg).map ZipEntry.name = reg.map Prod.fst ∧
    (runZip files_content).map ZipEntry.name = files_content_pairs.map Prod.fst := by
  constructor
  · rw [runZip_eq_map, List.map_map]
    exact List.map_congr_left fun p _ => rfl
  · rfl

/-- C6: a rerun against the same output path fully replaces the prior
archive: the result at `zip_filename` is exactly the freshly written entries
regardless of the prior filesystem state, and rerunning changes nothing. -/
theorem rerun_fully_replaces_archive (fs : FS) :
    runProgram fs zip_filename = some (runZip files_content) ∧
    ∀ p, runProgram (runProgram fs) p = runProgram fs p := by
  constructor
  · simp [runProgram]
  · intro p
    by_cases h : p = zip_filename <;> simp [runProgram, h]

/-- C7: if opening the output path or any entry write fails, the run
terminates as an error and the completion line is never among the printed
lines; conversely a run that terminates normally has written every registry
entry, prints the completion line last, and had a successfully opened
output path. -/
theorem failure_propagation :
    (∀ env e lines, runWithIO env files_content = RunResult.err e lines →
        doneLine ∉ lines) ∧
    (∀ env entries lines, runWithIO env files_content = RunResult.ok entries lines →
        entries.map ZipEntry.name = files_content.map Prod.fst ∧
        (∃ pre, lines = pre ++ [doneLine]) ∧ env.openOk = true) := by
  constructor
  · intro env e lines h hmem
    unfold runWithIO at h
    split at h
    · split at h
      · rename_i e₁ l₁ heq
        simp only [RunResult.err.injEq] at h
        rw [← h.2] at hmem
        obtain ⟨n, hn⟩ := writeLoop_inl env files_content 0 zipOpenW
          [creatingLine] e₁ l₁ heq
        rw [hn] at hmem
        have hfive : ∀ r ∈ files_content, addedLine r.fst ≠ doneLine := by decide
        rcases List.mem_append.mp hmem with hc | hp
        · exact absurd (List.mem_singleton.mp hc) (by decide)
        · obtain ⟨r, hr, hdone⟩ := List.mem_map.mp hp
          exact hfive r (List.take_subset n files_content hr) hdone
      · simp at h
    · simp only [RunResult.err.injEq] at h
      rw [← h.2] at hmem
      exact absurd (List.mem_singleton.mp hmem) (by decide)
  · intro env entries lines h
    unfold runWithIO at h
    split at h
    · rename_i ho
      split at h
      · simp at h
      · rename_i z₁ l₁ heq
        simp only [RunResult.ok.injEq] at h
        obtain ⟨hz, hl⟩ := writeLoop_inr env files_content 0 zipOpenW
          [creatingLine] z₁ l₁ heq
        refine ⟨?_, ⟨l₁, h.2.symm⟩, ho⟩
        rw [← h.1, hz]
        have hrz : (List.foldl (fun z p => writestr z p.fst p.snd) zipOpenW
            files_content).entries = runZip files_content := rfl
        rw [hrz, runZip_eq_map, List.map_map]
        exact List.map_congr_left fun p _ => rfl
    · simp at h

/-- C7 witness: at the environment where opening fails, the run errors having
printed only the `Creating` line, which is not the completion line; at the
all-success environment, the run completes with all five entries written. -/
theorem failure_propagation_witness :
    doneLine ∉ [creatingLine] ∧
    (runZip files_content).map ZipEntry.name = files_content.map Prod.fst := by
  constructor
  · exact failure_propagation.1 ⟨false, fun _ => true⟩
      ("cannot open " ++ zip_filename) [creatingLine] rfl
  · exact (failure_propagation.2 allOkEnv (runZip files_content)
      (creatingLine :: (files_content.map (fun p => addedLine p.fst) ++ [doneLine]))
      rfl).1

/-- C8 counterexample: the successful run's stdout is not just the per-entry
progress lines plus the final confirmation line — the script prints an
initial `Creating <path>...` line first (generate_md.py line 180). -/
theorem success_output_has_extra_line : ¬ specOutputOnlyProgressAndDone := by
  decide

/-- C8 (amended): on success the terminal output is exactly one initial line
announcing the output path, then one progress line per entry in write order,
then one final confirmation line naming the output path — 7 lines in all. -/
theorem success_output_lines :
    runWithIO allOkEnv files_content =
      RunResult.ok (runZip files_content)
        (creatingLine :: (files_content.map (fun p => addedLine p.fst) ++ [doneLine])) ∧
    successLines =
      creatingLine :: (files_content.map (fun p => addedLine p.fst) ++ [doneLine]) ∧
    successLines.length = files_content.length + 2 := by
  exact ⟨rfl, rfl, rfl⟩

/-- C9 counterexample: the entries are not stored compressed. `ZipFile` is
opened with the default `compression=ZIP_STORED`, so every written entry
records method 0, "no compression". -/
theorem archive_entries_not_compressed : ¬ specEntriesCompressed := by
  decide

/-- C9 (amended): each document is serialized as an individually named entry
of the single zip container at the output path, but with the `ZIP_STORED`
method (uncompressed), inherited from the archive's default compression. -/
theorem archive_entries_stored :
    runZip files_content =
      files_content.map (fun p => ⟨p.fst, p.snd, ZIP_STORED⟩) ∧
    zipOpenW.compression = ZIP_STORED ∧
    ((runZip files_content).map ZipEntry.compressType).all
      (fun m => m == ZIP_STORED) = true := by
  exact ⟨runZip_eq_map files_content, rfl, by decide⟩

/-- C10: every entry name in the registry (and hence in the archive) is a
flat filename with no path separator (`/` or `\`), so extraction yields all
five files in a single directory. -/
theorem entry_names_flat :
    ((runZip files_content).map ZipEntry.name).all
      (fun n => n.data.all fun c => !(c == '/' || c == '\\')) = true := by
  decide

end GenerateMd
